import Mathlib

/-!
Verification of the randomFRC streaming orchestrator against its
natural-language specification.

The development shallowly embeds the relevant parts of the source:
* `src/streamer.py` — outcome enum (`StreamResult`), error classifier
  (`_classify_error`), hardware-encoder selection (`_detect_hw_encoder`),
  and the control flow of `VideoStreamer.stream_video`;
* `src/main.py` — the resilience controller: `Application._handle_result`,
  the per-item retry loop and the circuit breaker inside `Application.run`;
* `src/picker.py` — `VideoPicker.next_video`, including its pool-rebuild
  path.

External effects (process spawning, process exit codes, diagnostic output,
interruption flags, metadata-client success or failure, shuffle results)
are passed in as explicit parameters, so every definition is an executable
function of its inputs.
-/

namespace RandomFRC

/-- Outcome enum from `src/streamer.py` (`StreamResult`).
Spec names: SUCCESS = Success, VIDEO_UNAVAILABLE = SourceUnavailable,
DOWNLOAD_ERROR = RetrievalError, ENCODE_ERROR = EncodingError,
RTMP_ERROR = SinkError, INTERRUPTED = Cancelled. -/
inductive StreamResult where
  | SUCCESS
  | VIDEO_UNAVAILABLE
  | DOWNLOAD_ERROR
  | ENCODE_ERROR
  | RTMP_ERROR
  | INTERRUPTED
deriving DecidableEq, Repr

/-- Whether the pattern is a leading segment of the text
(helper for Python's substring operator). -/
def charsStartWith : List Char → List Char → Bool
  | [], _ => true
  | _ :: _, [] => false
  | p :: ps, c :: cs => p == c && charsStartWith ps cs

/-- Python's `pat in text` on character lists: the pattern occurs
contiguously somewhere in the text. -/
def charsContain (pat : List Char) : List Char → Bool
  | [] => pat.isEmpty
  | c :: cs => charsStartWith pat (c :: cs) || charsContain pat cs

/-- Python's `"\n".join(lines)` on character lists. -/
def joinLines : List (List Char) → List Char
  | [] => []
  | [l] => l
  | l :: rest => l ++ '\n' :: joinLines rest

/-- ASCII lower-casing of a character list, matching Python's
`str.lower` on the ASCII diagnostics the classifier handles. -/
def lowerChars (cs : List Char) : List Char := cs.map Char.toLower

/-- The classifier's preprocessing of one stderr buffer:
`"\n".join(lines).lower()` (`src/streamer.py` lines 78-79). -/
def bufferText (lines : List String) : List Char :=
  lowerChars (joinLines (lines.map (fun s => s.data)))

/-- Python's `any(phrase in text for phrase in phrases)`. -/
def matchesAny (phrases : List String) (text : List Char) : Bool :=
  phrases.any (fun p => charsContain p.data text)

/-- Unavailability phrases checked against the yt-dlp buffer
(`src/streamer.py` lines 81-85). -/
def unavailablePhrases : List String :=
  ["video unavailable", "private video", "removed", "account terminated",
   "this video is not available", "sign in to confirm your age",
   "join this channel to get access"]

/-- Generic download-failure phrases checked against the yt-dlp buffer
(`src/streamer.py` lines 88-90). -/
def downloadErrorPhrases : List String :=
  ["error", "unable to download", "http error", "urlopen error"]

/-- Connectivity-failure phrases checked against the ffmpeg buffer
(`src/streamer.py` lines 93-96). -/
def rtmpErrorPhrases : List String :=
  ["connection refused", "connection reset", "broken pipe",
   "i/o error", "rtmp", "failed to connect"]

/-- Generic encode-failure phrases checked against the ffmpeg buffer
(`src/streamer.py` lines 99-101). -/
def encodeErrorPhrases : List String :=
  ["error", "invalid", "codec not found", "encoder"]

/-- `_classify_error` from `src/streamer.py` lines 76-104: join and
lower-case each stderr buffer, then evaluate the four phrase rules in
order, defaulting to DOWNLOAD_ERROR. -/
def classify_error (ytdlpStderr ffmpegStderr : List String) : StreamResult :=
  let ytdlpText := bufferText ytdlpStderr
  let ffmpegText := bufferText ffmpegStderr
  if matchesAny unavailablePhrases ytdlpText then StreamResult.VIDEO_UNAVAILABLE
  else if matchesAny downloadErrorPhrases ytdlpText then StreamResult.DOWNLOAD_ERROR
  else if matchesAny rtmpErrorPhrases ffmpegText then StreamResult.RTMP_ERROR
  else if matchesAny encodeErrorPhrases ffmpegText then StreamResult.ENCODE_ERROR
  else StreamResult.DOWNLOAD_ERROR

/-- The classifier exactly as the specification words it (section 4.3):
an ordered rule list evaluated by fixed precedence, first match wins,
with RetrievalError as the default.  Stated separately from
`classify_error` so the code can be proved a refinement of the spec. -/
def classifierSpecRules (retrievalBuf encodeBuf : List String) : StreamResult :=
  if matchesAny unavailablePhrases (bufferText retrievalBuf) then
    StreamResult.VIDEO_UNAVAILABLE
  else if matchesAny downloadErrorPhrases (bufferText retrievalBuf) then
    StreamResult.DOWNLOAD_ERROR
  else if matchesAny rtmpErrorPhrases (bufferText encodeBuf) then
    StreamResult.RTMP_ERROR
  else if matchesAny encodeErrorPhrases (bufferText encodeBuf) then
    StreamResult.ENCODE_ERROR
  else StreamResult.DOWNLOAD_ERROR

/-- C1: the classifier is a deterministic function agreeing rule for rule
with the spec's fixed-precedence rule list, and a retrieval line
"ERROR: Video unavailable" yields SourceUnavailable whatever the encode
buffer holds. -/
theorem classify_error_spec :
    (∀ ret enc, classify_error ret enc = classifierSpecRules ret enc) ∧
    (∀ enc, classify_error ["ERROR: Video unavailable"] enc =
      StreamResult.VIDEO_UNAVAILABLE) := by
  constructor
  · intro ret enc
    rfl
  · intro enc
    rfl

/-- The kinds of sleep the controller can perform, tagged with the code
site that triggers them (`src/main.py`).  `rtmpBackoff` carries its
computed duration in seconds; the other durations are fixed configuration
values not needed by any claim. -/
inductive SleepKind where
  | circuitPause
  | noVideoPause
  | retryDelay
  | errorCooldown
  | rtmpBackoff (secs : Nat)
deriving DecidableEq, Repr

/-- `Application._handle_result` from `src/main.py` lines 47-75: given the
final outcome for an item and the current `_consecutive_errors` counter,
return the new counter together with the sleeps performed. -/
def handle_result (result : StreamResult) (ce : Nat) : Nat × List SleepKind :=
  if result = StreamResult.SUCCESS then (0, [])
  else if result = StreamResult.INTERRUPTED then (ce, [])
  else if result = StreamResult.VIDEO_UNAVAILABLE then (ce, [])
  else
    let ce2 := ce + 1
    if result = StreamResult.RTMP_ERROR then
      (ce2, [SleepKind.rtmpBackoff (min (2 ^ ce2) 120)])
    else
      (ce2, [SleepKind.errorCooldown])

/-- An outcome on which the per-item retry loop stops immediately
(`src/main.py` line 125). -/
def isStopOutcome (r : StreamResult) : Bool :=
  r == StreamResult.SUCCESS || r == StreamResult.INTERRUPTED ||
    r == StreamResult.VIDEO_UNAVAILABLE

/-- Observable trace of one run of the per-item retry loop: final result,
number of pipeline invocations, and the sleeps performed inside the loop. -/
structure RetryTrace where
  result : StreamResult
  invocations : Nat
  sleeps : List SleepKind
deriving DecidableEq, Repr

/-- One unrolling step of the retry loop (`src/main.py` lines 119-135).
`outcomes k` is the result of the (k+1)-th pipeline invocation for this
item; `fuel` is `max_retries_per_video + 1 - retries`, the number of loop
iterations still allowed, so the loop guard `retries <= max_retries`
becomes `0 < fuel`.  After a non-stop outcome the code sleeps the retry
delay exactly when another iteration remains (`retries <= max_retries`
after the increment, i.e. the decremented fuel is still positive).  The
shutdown flag is modelled as unset for the whole loop: cancellation
during a run surfaces as an INTERRUPTED outcome, which stops the loop. -/
def retryGo (outcomes : Nat → StreamResult) (idx : Nat) : Nat → RetryTrace
  | 0 => ⟨StreamResult.INTERRUPTED, 0, []⟩
  | fuel + 1 =>
    let r := outcomes idx
    if isStopOutcome r then ⟨r, 1, []⟩
    else if fuel = 0 then ⟨r, 1, []⟩
    else
      let t := retryGo outcomes (idx + 1) fuel
      ⟨t.result, t.invocations + 1, SleepKind.retryDelay :: t.sleeps⟩

/-- The per-item retry loop of `Application.run` (`src/main.py` lines
119-135): starts with `retries = 0`, so the initial fuel is
`maxRetries + 1`. -/
def retryLoop (outcomes : Nat → StreamResult) (maxRetries : Nat) : RetryTrace :=
  retryGo outcomes 0 (maxRetries + 1)

theorem retryGo_invocations_le (outcomes : Nat → StreamResult) :
    ∀ fuel idx, (retryGo outcomes idx fuel).invocations ≤ fuel := by
  intro fuel
  induction fuel with
  | zero => intro idx; simp [retryGo]
  | succ f ih =>
    intro idx
    simp only [retryGo]
    split
    · exact Nat.succ_le_succ (Nat.zero_le f)
    · split
      · exact Nat.succ_le_succ (Nat.zero_le f)
      · simpa using Nat.succ_le_succ (ih (idx + 1))

theorem retryGo_first_stop (outcomes : Nat → StreamResult) :
    ∀ k idx fuel, k < fuel →
      (∀ j, j < k → isStopOutcome (outcomes (idx + j)) = false) →
      isStopOutcome (outcomes (idx + k)) = true →
      retryGo outcomes idx fuel =
        ⟨outcomes (idx + k), k + 1, List.replicate k SleepKind.retryDelay⟩ := by
  intro k
  induction k with
  | zero =>
    intro idx fuel hf _ hstop
    obtain ⟨f, rfl⟩ := Nat.exists_eq_add_of_lt hf
    simp only [retryGo, Nat.add_zero] at hstop ⊢
    rw [if_pos hstop]
    rfl
  | succ k ih =>
    intro idx fuel hf hpre hstop
    obtain ⟨f, rfl⟩ := Nat.exists_eq_add_of_lt hf
    have h0 : isStopOutcome (outcomes idx) = false := by
      have := hpre 0 (Nat.succ_pos k)
      simpa using this
    have hrec := ih (idx + 1) (k + 1 + f) (by omega)
      (fun j hj => by
        have := hpre (j + 1) (by omega)
        simpa [Nat.add_assoc, Nat.add_comm 1 j] using this)
      (by
        have harg : idx + 1 + k = idx + (k + 1) := by omega
        rw [harg]
        exact hstop)
    show retryGo outcomes idx (k + 1 + f + 1) = _
    simp only [retryGo]
    rw [if_neg (by simp [h0]), if_neg (by omega)]
    simp only [hrec]
    have harg : idx + 1 + k = idx + (k + 1) := by omega
    simp [harg, List.replicate_succ]

theorem retryGo_no_stop (outcomes : Nat → StreamResult) :
    ∀ fuel idx, 0 < fuel →
      (∀ j, j < fuel → isStopOutcome (outcomes (idx + j)) = false) →
      retryGo outcomes idx fuel =
        ⟨outcomes (idx + (fuel - 1)), fuel,
          List.replicate (fuel - 1) SleepKind.retryDelay⟩ := by
  intro fuel
  induction fuel with
  | zero => intro idx h; omega
  | succ f ih =>
    intro idx _ hpre
    have h0 : isStopOutcome (outcomes idx) = false := by
      have := hpre 0 (Nat.succ_pos f)
      simpa using this
    simp only [retryGo]
    rw [if_neg (by simp [h0])]
    rcases Nat.eq_zero_or_pos f with hf | hf
    · subst hf
      simp
    · rw [if_neg (by omega)]
      have hrec := ih (idx + 1) hf
        (fun j hj => by
          have := hpre (j + 1) (by omega)
          simpa [Nat.add_assoc, Nat.add_comm 1 j] using this)
      simp only [hrec]
      have h1 : idx + 1 + (f - 1) = idx + (f + 1 - 1) := by omega
      have h2 : List.replicate (f + 1 - 1) SleepKind.retryDelay =
          SleepKind.retryDelay :: List.replicate (f - 1) SleepKind.retryDelay := by
        have h3 : f + 1 - 1 = f - 1 + 1 := by omega
        rw [h3, List.replicate_succ]
      rw [h1, h2]

/-- C2: the retry loop performs at most `maxRetries + 1` pipeline
invocations; it stops at the first Success/Cancelled/SourceUnavailable
outcome, reporting it after exactly `k + 1` invocations and `k` retry
sleeps when the first stop outcome is attempt `k`; when no outcome stops
it, the last outcome is kept after exactly `maxRetries + 1` invocations;
and in the scenario `maxRetries = 2` with three consecutive EncodingError
outcomes there are exactly 3 invocations, the reported outcome is
EncodingError, the failure counter rises by exactly 1 and exactly one
error-cooldown sleep happens. -/
theorem retry_loop_spec :
    (∀ outcomes maxRetries,
      (retryLoop outcomes maxRetries).invocations ≤ maxRetries + 1) ∧
    (∀ outcomes maxRetries k, k ≤ maxRetries →
      (∀ j, j < k → isStopOutcome (outcomes j) = false) →
      isStopOutcome (outcomes k) = true →
      retryLoop outcomes maxRetries =
        ⟨outcomes k, k + 1, List.replicate k SleepKind.retryDelay⟩) ∧
    (∀ outcomes maxRetries,
      (∀ j, j ≤ maxRetries → isStopOutcome (outcomes j) = false) →
      retryLoop outcomes maxRetries =
        ⟨outcomes maxRetries, maxRetries + 1,
          List.replicate maxRetries SleepKind.retryDelay⟩) ∧
    (retryLoop (fun _ => StreamResult.ENCODE_ERROR) 2 =
      ⟨StreamResult.ENCODE_ERROR, 3, List.replicate 2 SleepKind.retryDelay⟩ ∧
     ∀ ce, handle_result StreamResult.ENCODE_ERROR ce =
       (ce + 1, [SleepKind.errorCooldown])) := by
  refine ⟨fun outcomes maxRetries => retryGo_invocations_le outcomes _ 0,
    fun outcomes maxRetries k hk hpre hstop => ?_,
    fun outcomes maxRetries hpre => ?_, rfl, fun ce => rfl⟩
  · have := retryGo_first_stop outcomes k 0 (maxRetries + 1) (by omega)
      (fun j hj => by simpa using hpre j hj) (by simpa using hstop)
    simpa [retryLoop] using this
  · have := retryGo_no_stop outcomes (maxRetries + 1) 0 (Nat.succ_pos _)
      (fun j hj => by simpa using hpre j (by omega))
    simpa [retryLoop] using this

/-- Witness for C2: the early-stop clause applied at a concrete input —
an immediate Success ends the loop after one invocation and no sleep. -/
theorem retry_loop_spec_witness :
    retryLoop (fun _ => StreamResult.SUCCESS) 2 =
      ⟨StreamResult.SUCCESS, 1, List.replicate 0 SleepKind.retryDelay⟩ :=
  retry_loop_spec.2.1 (fun _ => StreamResult.SUCCESS) 2 0 (by decide)
    (fun j hj => absurd hj (Nat.not_lt_zero j)) (by decide)

/-- C5: applying an outcome to the controller state (`_handle_result`):
Success resets the counter to exactly 0; Cancelled and SourceUnavailable
leave it unchanged; RetrievalError, EncodingError and SinkError increment
it by exactly 1; and from a positive counter only a Success outcome can
bring it to 0. -/
theorem consecutive_failures_update (ce : Nat) :
    handle_result StreamResult.SUCCESS ce = (0, []) ∧
    handle_result StreamResult.INTERRUPTED ce = (ce, []) ∧
    handle_result StreamResult.VIDEO_UNAVAILABLE ce = (ce, []) ∧
    (handle_result StreamResult.DOWNLOAD_ERROR ce).1 = ce + 1 ∧
    (handle_result StreamResult.ENCODE_ERROR ce).1 = ce + 1 ∧
    (handle_result StreamResult.RTMP_ERROR ce).1 = ce + 1 ∧
    (∀ r, 0 < ce → (handle_result r ce).1 = 0 → r = StreamResult.SUCCESS) := by
  refine ⟨rfl, rfl, rfl, rfl, rfl, rfl, fun r hce h => ?_⟩
  cases r <;> simp [handle_result] at h <;> first | rfl | omega

/-- Witness for C5: the only hypothesis-bearing clause, applied at the
concrete counter 1 with a Success outcome. -/
theorem consecutive_failures_update_witness :
    StreamResult.SUCCESS = StreamResult.SUCCESS :=
  (consecutive_failures_update 1).2.2.2.2.2.2 StreamResult.SUCCESS
    (by decide) (by decide)

/-- C7: sleep durations chosen by `_handle_result` — a SinkError sleeps
`min(2 ^ consecutiveFailures, 120)` seconds with the exponent taken after
the increment, RetrievalError and EncodingError sleep the fixed
error-cooldown, and a SinkError with prior counter 5 sleeps exactly
`min(2 ^ 6, 120) = 64` seconds. -/
theorem sink_backoff_spec (ce : Nat) :
    handle_result StreamResult.RTMP_ERROR ce =
      (ce + 1, [SleepKind.rtmpBackoff (min (2 ^ (ce + 1)) 120)]) ∧
    handle_result StreamResult.DOWNLOAD_ERROR ce =
      (ce + 1, [SleepKind.errorCooldown]) ∧
    handle_result StreamResult.ENCODE_ERROR ce =
      (ce + 1, [SleepKind.errorCooldown]) ∧
    handle_result StreamResult.RTMP_ERROR 5 =
      (6, [SleepKind.rtmpBackoff 64]) := by
  refine ⟨rfl, rfl, rfl, ?_⟩
  decide

/-- Circuit-breaker threshold from `src/main.py` line 15. -/
def CIRCUIT_BREAKER_THRESHOLD : Nat := 10

/-- State of `VideoPicker`: the shuffled pool and the read index
(`src/picker.py`). -/
structure PickerState (V : Type) where
  pool : List V
  index : Nat
deriving DecidableEq, Repr

/-- Result of a call to `VideoPicker.next_video`: either it returns a
video (or none, when the pool is empty) with the updated picker state, or
it raises — the unguarded `self.build_pool()` on `src/picker.py` line 147
propagates any metadata-client exception to the caller. -/
inductive NextVideoResult (V : Type) where
  | ok (v : Option V) (s : PickerState V)
  | raised
deriving DecidableEq, Repr

/-- `VideoPicker.next_video` from `src/picker.py` lines 139-159.
`ttlExpired` models `time.monotonic() - self._pool_built_at >= cache_ttl`;
`rebuildPool` models the pool `build_pool` would install (index reset
to 0), or the exception it would propagate; `reshuffled` models the pool
after `random.shuffle` in the not-yet-expired branch. -/
def next_video_state {V : Type} (s : PickerState V) (ttlExpired : Bool)
    (rebuildPool : Except Unit (List V)) (reshuffled : List V) :
    Except Unit (PickerState V) :=
  if s.pool.length ≤ s.index then
    if ttlExpired then
      match rebuildPool with
      | Except.error e => Except.error e
      | Except.ok newPool => Except.ok ⟨newPool, 0⟩
    else Except.ok ⟨reshuffled, 0⟩
  else Except.ok s

/-- The exhaustion-handling prefix of `next_video` (`src/picker.py` lines
143-151) never raises when the rebuild succeeds. -/
theorem next_video_state_ok {V : Type} (s : PickerState V) (ttl : Bool)
    (newPool rs : List V) :
    ∃ s2, next_video_state s ttl (Except.ok newPool) rs = Except.ok s2 := by
  unfold next_video_state
  split
  · split
    · exact ⟨⟨newPool, 0⟩, rfl⟩
    · exact ⟨⟨rs, 0⟩, rfl⟩
  · exact ⟨s, rfl⟩

def next_video {V : Type} (s : PickerState V) (ttlExpired : Bool)
    (rebuildPool : Except Unit (List V)) (reshuffled : List V) :
    NextVideoResult V :=
  match next_video_state s ttlExpired rebuildPool reshuffled with
  | Except.error _ => NextVideoResult.raised
  | Except.ok s2 =>
    if s2.pool.isEmpty then NextVideoResult.ok none s2
    else NextVideoResult.ok (s2.pool.get? s2.index) ⟨s2.pool, s2.index + 1⟩

/-- Observable trace of one iteration of the control loop in
`Application.run` (`src/main.py` lines 101-136): whether the iteration
crashed with an uncaught exception, whether the circuit breaker fired,
whether an item pull was attempted, how many pipeline invocations ran,
the new failure counter, the new picker state, and the sleeps performed. -/
structure IterTrace (V : Type) where
  crashed : Bool
  circuitFired : Bool
  pulledItem : Bool
  invocations : Nat
  finalCE : Nat
  finalPicker : PickerState V
  sleeps : List SleepKind
deriving DecidableEq, Repr

/-- One iteration of the control loop of `Application.run` (`src/main.py`
lines 101-136), entered with `_running` still true.  `safeRebuild` models
the `_safe_rebuild_pool` call on the empty-pool path, which swallows
rebuild failures (`src/main.py` lines 30-35); `rebuildPool` models the
unguarded rebuild inside `next_video`. -/
def runIter {V : Type} (ce : Nat) (ps : PickerState V) (ttlExpired : Bool)
    (rebuildPool safeRebuild : Except Unit (List V)) (reshuffled : List V)
    (outcomes : Nat → StreamResult) (maxRetries : Nat) : IterTrace V :=
  if CIRCUIT_BREAKER_THRESHOLD ≤ ce then
    ⟨false, true, false, 0, 0, ps, [SleepKind.circuitPause]⟩
  else
    match next_video ps ttlExpired rebuildPool reshuffled with
    | NextVideoResult.raised => ⟨true, false, true, 0, ce, ps, []⟩
    | NextVideoResult.ok none s2 =>
      let s3 := match safeRebuild with
        | Except.error _ => s2
        | Except.ok newPool => (⟨newPool, 0⟩ : PickerState V)
      ⟨false, false, true, 0, ce, s3, [SleepKind.noVideoPause]⟩
    | NextVideoResult.ok (some _) s2 =>
      let t := retryLoop outcomes maxRetries
      let h := handle_result t.result ce
      ⟨false, false, true, t.invocations, h.1, s2, t.sleeps ++ h.2⟩

/-- C6: the circuit breaker fires exactly when the failure counter has
reached the threshold (10) at the top of an iteration; on firing the
iteration sleeps the fixed pause, resets the counter to 0 and pulls no
item; below the threshold it never fires and the iteration attempts an
item pull. -/
theorem circuit_breaker_spec (V : Type) (ce : Nat) (ps : PickerState V)
    (ttl : Bool) (rb srb : Except Unit (List V)) (rs : List V)
    (oc : Nat → StreamResult) (mr : Nat) :
    CIRCUIT_BREAKER_THRESHOLD = 10 ∧
    (CIRCUIT_BREAKER_THRESHOLD ≤ ce →
      runIter ce ps ttl rb srb rs oc mr =
        ⟨false, true, false, 0, 0, ps, [SleepKind.circuitPause]⟩) ∧
    (ce < CIRCUIT_BREAKER_THRESHOLD →
      (runIter ce ps ttl rb srb rs oc mr).circuitFired = false ∧
      (runIter ce ps ttl rb srb rs oc mr).pulledItem = true) := by
  refine ⟨rfl, fun h => ?_, fun h => ?_⟩
  · unfold runIter
    rw [if_pos h]
  · unfold runIter
    rw [if_neg (by omega)]
    cases hnv : next_video ps ttl rb rs with
    | raised => exact ⟨rfl, rfl⟩
    | ok v s2 => cases v <;> exact ⟨rfl, rfl⟩

/-- Witness for C6: applied at the concrete threshold counter 10 and,
for the below-threshold clause, at counter 0. -/
theorem circuit_breaker_spec_witness :
    runIter 10 (⟨[], 0⟩ : PickerState Nat) false (Except.ok []) (Except.ok [])
        [] (fun _ => StreamResult.SUCCESS) 2 =
      ⟨false, true, false, 0, 0, ⟨[], 0⟩, [SleepKind.circuitPause]⟩ ∧
    (runIter 0 (⟨[], 0⟩ : PickerState Nat) false (Except.ok []) (Except.ok [])
        [] (fun _ => StreamResult.SUCCESS) 2).circuitFired = false :=
  ⟨(circuit_breaker_spec Nat 10 ⟨[], 0⟩ false (Except.ok []) (Except.ok [])
      [] (fun _ => StreamResult.SUCCESS) 2).2.1 (by decide),
   ((circuit_breaker_spec Nat 0 ⟨[], 0⟩ false (Except.ok []) (Except.ok [])
      [] (fun _ => StreamResult.SUCCESS) 2).2.2 (by decide)).1⟩

/-- C4 (code bug): after startup the loop can still die with an uncaught
exception, exiting the process non-zero without any shutdown signal.
With one video streamed (pool `[0]`, index 1), the pool TTL expired and
the metadata client failing, the rebuild inside `next_video`
(`src/picker.py` line 147) propagates the exception through
`Application.run` (`src/main.py` line 112, unguarded) and the iteration
crashes; the same state with a succeeding rebuild does not crash, and no
iteration whose `next_video` rebuild succeeds — in particular no
pipeline failure — can crash. -/
theorem run_loop_crash_on_rebuild :
    (runIter 0 (⟨[0], 1⟩ : PickerState Nat) true (Except.error ())
        (Except.ok []) [] (fun _ => StreamResult.SUCCESS) 2).crashed = true ∧
    (runIter 0 (⟨[0], 1⟩ : PickerState Nat) true (Except.ok [0])
        (Except.ok []) [] (fun _ => StreamResult.SUCCESS) 2).crashed = false ∧
    (∀ (V : Type) (ce : Nat) (ps : PickerState V) (ttl : Bool)
        (newPool : List V) (srb : Except Unit (List V)) (rs : List V)
        (oc : Nat → StreamResult) (mr : Nat),
      (runIter ce ps ttl (Except.ok newPool) srb rs oc mr).crashed = false) := by
  refine ⟨rfl, rfl, fun V ce ps ttl newPool srb rs oc mr => ?_⟩
  unfold runIter
  split
  · rfl
  · obtain ⟨s2, hs2⟩ := next_video_state_ok ps ttl newPool rs
    unfold next_video
    rw [hs2]
    split
    · exfalso
      rename_i heq
      simp only [] at heq
      split at heq <;> simp_all
    · rfl
    · rfl

/-- Environment of one `VideoStreamer.stream_video` run (`src/streamer.py`
lines 176-273): the interruption flag as observed at the initial check
(line 178) and at the later checks (lines 253 and 259), whether each
`Popen` call succeeds, whether the waiting phase raises, the two exit
codes, and the two captured stderr buffers. -/
structure RunEnv where
  interruptedAtStart : Bool
  retrievalSpawnOk : Bool
  encodeSpawnOk : Bool
  waitRaised : Bool
  interruptedAtEnd : Bool
  ytdlpRc : Int
  ffmpegRc : Int
  ytdlpStderr : List String
  ffmpegStderr : List String
deriving DecidableEq, Repr

/-- `VideoStreamer.stream_video` control flow (`src/streamer.py` lines
176-273), returning the result together with the number of external
processes that were started.  Both `Popen` calls sit in one `try` block
whose handler returns INTERRUPTED when the flag is set and
DOWNLOAD_ERROR otherwise (lines 250-255), regardless of which stage
failed to start; `_current_procs` is only assigned after both spawns
(line 220), so a run that starts no process leaves it untouched. -/
def stream_video (env : RunEnv) : StreamResult × Nat :=
  if env.interruptedAtStart then (StreamResult.INTERRUPTED, 0)
  else if env.retrievalSpawnOk = false then
    ((if env.interruptedAtEnd then StreamResult.INTERRUPTED
      else StreamResult.DOWNLOAD_ERROR), 0)
  else if env.encodeSpawnOk = false then
    ((if env.interruptedAtEnd then StreamResult.INTERRUPTED
      else StreamResult.DOWNLOAD_ERROR), 1)
  else if env.waitRaised then
    ((if env.interruptedAtEnd then StreamResult.INTERRUPTED
      else StreamResult.DOWNLOAD_ERROR), 2)
  else if env.interruptedAtEnd then (StreamResult.INTERRUPTED, 2)
  else if env.ytdlpRc = 0 ∧ env.ffmpegRc = 0 then (StreamResult.SUCCESS, 2)
  else (classify_error env.ytdlpStderr env.ffmpegStderr, 2)

/-- C3 counterexample: with cancellation unset and the Encode-stage
`Popen` failing (retrieval spawn fine), the run returns DOWNLOAD_ERROR
(RetrievalError) — not ENCODE_ERROR (EncodingError) as the claim states,
because the shared exception handler never distinguishes the stages. -/
theorem spawn_failure_counterexample :
    stream_video ⟨false, true, false, false, false, 0, 0, [], []⟩ =
      (StreamResult.DOWNLOAD_ERROR, 1) ∧
    StreamResult.DOWNLOAD_ERROR ≠ StreamResult.ENCODE_ERROR :=
  ⟨rfl, by decide⟩

/-- C3 amended: a process-creation failure in either stage is reported as
RetrievalError (DOWNLOAD_ERROR), regardless of which stage failed to
start, unless cancellation is observed, in which case the run returns
Cancelled. -/
theorem spawn_failure_amended (env : RunEnv) :
    (env.interruptedAtStart = false → env.retrievalSpawnOk = false →
      (stream_video env).1 =
        (if env.interruptedAtEnd then StreamResult.INTERRUPTED
         else StreamResult.DOWNLOAD_ERROR)) ∧
    (env.interruptedAtStart = false → env.retrievalSpawnOk = true →
      env.encodeSpawnOk = false →
      (stream_video env).1 =
        (if env.interruptedAtEnd then StreamResult.INTERRUPTED
         else StreamResult.DOWNLOAD_ERROR)) ∧
    (env.interruptedAtStart = true →
      stream_video env = (StreamResult.INTERRUPTED, 0)) := by
  refine ⟨fun h1 h2 => ?_, fun h1 h2 h3 => ?_, fun h1 => ?_⟩
  · unfold stream_video
    rw [h1, h2]
    rfl
  · unfold stream_video
    rw [h1, h2, h3]
    rfl
  · unfold stream_video
    rw [h1]
    rfl

/-- Witness for C3's amended claim: the encode-stage clause applied at
the counterexample's concrete environment. -/
theorem spawn_failure_amended_witness :
    (stream_video ⟨false, true, false, false, false, 0, 0, [], []⟩).1 =
      (if (false : Bool) then StreamResult.INTERRUPTED
       else StreamResult.DOWNLOAD_ERROR) :=
  (spawn_failure_amended ⟨false, true, false, false, false, 0, 0, [], []⟩).2.1
    rfl rfl rfl

/-- C8: when the shutdown flag is already set as a run begins
(`src/streamer.py` lines 178-179), the run returns Cancelled having
started no external process — and therefore without touching the tracked
process handles, which are only assigned after both spawns. -/
theorem cancelled_before_start (env : RunEnv)
    (h : env.interruptedAtStart = true) :
    stream_video env = (StreamResult.INTERRUPTED, 0) := by
  unfold stream_video
  rw [h]
  rfl

/-- Witness for C8 at a concrete environment with the flag set. -/
theorem cancelled_before_start_witness :
    stream_video ⟨true, true, true, false, false, 0, 0, [], []⟩ =
      (StreamResult.INTERRUPTED, 0) :=
  cancelled_before_start ⟨true, true, true, false, false, 0, 0, [], []⟩ rfl

/-- C10: the classifier only ever produces one of the four failure
outcomes — never Success or Cancelled — and consequently a run whose
processes did not both exit zero, with cancellation unset throughout, is
never reported Success or Cancelled. -/
theorem classifier_range_spec :
    (∀ ret enc, classify_error ret enc ≠ StreamResult.SUCCESS ∧
      classify_error ret enc ≠ StreamResult.INTERRUPTED) ∧
    (∀ env : RunEnv, env.interruptedAtStart = false →
      env.interruptedAtEnd = false →
      ¬(env.ytdlpRc = 0 ∧ env.ffmpegRc = 0) →
      (stream_video env).1 ≠ StreamResult.SUCCESS ∧
      (stream_video env).1 ≠ StreamResult.INTERRUPTED) := by
  have hcls : ∀ ret enc, classify_error ret enc ≠ StreamResult.SUCCESS ∧
      classify_error ret enc ≠ StreamResult.INTERRUPTED := by
    intro ret enc
    simp only [classify_error]
    repeat' split
    all_goals decide
  refine ⟨hcls, fun env h1 h2 h3 => ?_⟩
  unfold stream_video
  rw [h1, h2, if_neg h3]
  simp only [Bool.false_eq_true, if_false]
  repeat' split
  all_goals first
    | decide
    | exact hcls env.ytdlpStderr env.ffmpegStderr

/-- Witness for C10's run clause at a concrete environment in which
yt-dlp exited 1. -/
theorem classifier_range_spec_witness :
    (stream_video ⟨false, true, true, false, false, 1, 0, [], []⟩).1 ≠
      StreamResult.SUCCESS ∧
    (stream_video ⟨false, true, true, false, false, 1, 0, [], []⟩).1 ≠
      StreamResult.INTERRUPTED :=
  classifier_range_spec.2 ⟨false, true, true, false, false, 1, 0, [], []⟩
    rfl rfl (by decide)

/-- One hardware-encoder candidate as built by `_detect_hw_encoder`
(`src/streamer.py` lines 31-38): a vendor label, the ffmpeg encoder name
probed for, and the extra ffmpeg arguments it carries. -/
structure Candidate where
  label : String
  encoder : String
  extraArgs : List String
deriving DecidableEq, Repr

/-- Probe environment of `_detect_hw_encoder`: whether `shutil.which`
finds ffmpeg, whether the `-encoders` probe completes without raising
(its 10s timeout included), and the probe's captured stdout. -/
structure ProbeEnv where
  ffmpegOnPath : Bool
  probeOk : Bool
  availableText : List Char
deriving DecidableEq, Repr

/-- The selected profile: encoder name, extra arguments, and whether the
external probe was run at all. -/
structure EncoderChoice where
  name : String
  extraArgs : List String
  probed : Bool
deriving DecidableEq, Repr

/-- The ordered candidate list of `_detect_hw_encoder` (`src/streamer.py`
lines 31-38): nvenc, then videotoolbox, then vaapi, each included when it
is the stated preference or the preference is "auto". -/
def hwCandidates (preference : String) : List Candidate :=
  (if preference == "nvenc" || preference == "auto" then
    [⟨"nvenc", "h264_nvenc", ["-preset", "p4"]⟩] else []) ++
  (if preference == "videotoolbox" || preference == "auto" then
    [⟨"videotoolbox", "h264_videotoolbox", []⟩] else []) ++
  (if preference == "vaapi" || preference == "auto" then
    [⟨"vaapi", "h264_vaapi", []⟩] else [])

/-- `_detect_hw_encoder` from `src/streamer.py` lines 26-61: "none" short
circuits to the software encoder before any probing; a missing ffmpeg or
a failed probe falls back to the software encoder; otherwise the first
candidate whose encoder name occurs in the probe output is chosen, with
the software encoder as the final fallback. -/
def detect_hw_encoder (preference : String) (env : ProbeEnv) : EncoderChoice :=
  if preference == "none" then ⟨"libx264", [], false⟩
  else if env.ffmpegOnPath = false then ⟨"libx264", [], false⟩
  else if env.probeOk = false then ⟨"libx264", [], true⟩
  else
    match (hwCandidates preference).find?
        (fun c => charsContain c.encoder.data env.availableText) with
    | some c => ⟨c.encoder, c.extraArgs, true⟩
    | none => ⟨"libx264", [], true⟩

/-- C9: preference "none" selects the software encoder with no extra
arguments and runs no probe; "auto" builds the candidates in the fixed
priority order nvenc, videotoolbox, vaapi while a specific vendor builds
only its own; a missing encoding tool or a failed/timed-out probe falls
back to the software encoder with no extra arguments; the first candidate
present in the probe output is selected; and when no candidate is present
the software encoder with no extra arguments is returned. -/
theorem encoder_selection_spec :
    (∀ env, detect_hw_encoder "none" env = ⟨"libx264", [], false⟩) ∧
    hwCandidates "auto" = [⟨"nvenc", "h264_nvenc", ["-preset", "p4"]⟩,
      ⟨"videotoolbox", "h264_videotoolbox", []⟩,
      ⟨"vaapi", "h264_vaapi", []⟩] ∧
    hwCandidates "nvenc" = [⟨"nvenc", "h264_nvenc", ["-preset", "p4"]⟩] ∧
    hwCandidates "videotoolbox" =
      [⟨"videotoolbox", "h264_videotoolbox", []⟩] ∧
    hwCandidates "vaapi" = [⟨"vaapi", "h264_vaapi", []⟩] ∧
    (∀ pref env, env.ffmpegOnPath = false →
      (detect_hw_encoder pref env).name = "libx264" ∧
      (detect_hw_encoder pref env).extraArgs = []) ∧
    (∀ pref env, env.probeOk = false →
      (detect_hw_encoder pref env).name = "libx264" ∧
      (detect_hw_encoder pref env).extraArgs = []) ∧
    (∀ pref env c, env.ffmpegOnPath = true → env.probeOk = true →
      (hwCandidates pref).find?
          (fun c => charsContain c.encoder.data env.availableText) = some c →
      detect_hw_encoder pref env = ⟨c.encoder, c.extraArgs, true⟩) ∧
    (∀ pref env, (∀ c, c ∈ hwCandidates pref →
        charsContain c.encoder.data env.availableText = false) →
      (detect_hw_encoder pref env).name = "libx264" ∧
      (detect_hw_encoder pref env).extraArgs = []) := by
  refine ⟨fun env => rfl, rfl, rfl, rfl, rfl, fun pref env h => ?_,
    fun pref env h => ?_, fun pref env c h1 h2 hf => ?_, fun pref env h => ?_⟩
  · unfold detect_hw_encoder
    by_cases hn : (pref == "none") = true
    · rw [if_pos hn]; exact ⟨rfl, rfl⟩
    · rw [if_neg hn, if_pos h]; exact ⟨rfl, rfl⟩
  · unfold detect_hw_encoder
    by_cases hn : (pref == "none") = true
    · rw [if_pos hn]; exact ⟨rfl, rfl⟩
    · rw [if_neg hn]
      by_cases hff : env.ffmpegOnPath = false
      · rw [if_pos hff]; exact ⟨rfl, rfl⟩
      · rw [if_neg hff, if_pos h]; exact ⟨rfl, rfl⟩
  · unfold detect_hw_encoder
    by_cases hn : (pref == "none") = true
    · exfalso
      have hp : pref = "none" := by simpa using hn
      subst hp
      simp [hwCandidates] at hf
    · rw [if_neg hn, if_neg (by simp [h1]), if_neg (by simp [h2]), hf]
  · unfold detect_hw_encoder
    by_cases hn : (pref == "none") = true
    · rw [if_pos hn]; exact ⟨rfl, rfl⟩
    · rw [if_neg hn]
      by_cases hff : env.ffmpegOnPath = false
      · rw [if_pos hff]; exact ⟨rfl, rfl⟩
      · rw [if_neg hff]
        by_cases hpo : env.probeOk = false
        · rw [if_pos hpo]; exact ⟨rfl, rfl⟩
        · rw [if_neg hpo]
          have hfind : (hwCandidates pref).find?
              (fun c => charsContain c.encoder.data env.availableText) =
              none := by
            rw [List.find?_eq_none]
            intro x hx
            simp [h x hx]
          rw [hfind]
          exact ⟨rfl, rfl⟩

/-- Witness for C9: the tool-absent clause applied at preference "auto"
with ffmpeg missing from PATH. -/
theorem encoder_selection_spec_witness :
    (detect_hw_encoder "auto" ⟨false, true, []⟩).name = "libx264" ∧
    (detect_hw_encoder "auto" ⟨false, true, []⟩).extraArgs = [] :=
  encoder_selection_spec.2.2.2.2.2.1 "auto" ⟨false, true, []⟩ rfl

end RandomFRC
